import Mathlib

/-!
Shallow embedding of the moderation state machine of the messaging-bot
publishing pipeline in bot.py.  Time is modelled as whole seconds read off
the local wall clock of the process (the source uses the naive
datetime.now() everywhere); the SQLite posts table is modelled as a list
of rows.  The reject flow keeps its working data in an FSM record, which
is the PendingRejection of the specification: it is keyed by post id and
stores no moderator identity (bot.py, reject handler, state.update_data).
-/

namespace ModBot

/-- Status column of the posts table.  The source stores the strings
"moderation" (called pending by the specification), "published" and
"rejected". -/
inductive Status
  | moderation
  | published
  | rejected
deriving DecidableEq, Repr

/-- A row of the posts table (bot.py, CREATE TABLE posts).  The message
reference columns are omitted; the message reference the reject flow needs
is carried in RejectData below, as in the source. -/
structure Post where
  id : Nat
  user_id : Nat
  text : String
  photo : Option String
  time : Int
  status : Status
  moderator_id : Option Nat
  moderation_time : Option Int
  reject_reason : Option String
deriving DecidableEq, Repr

/-- The data the reject handler stores in the FSM context
(bot.py, reject: state.update_data).  Exactly these fields are stored:
post id, the message reference of the review message, the original text,
the photo, and the timestamp of the reject request.  No moderator identity
is recorded. -/
structure RejectData where
  post_id : Nat
  message_id : Nat
  chat_id : Int
  original_text : String
  photo : Option String
  timestamp : Int
deriving DecidableEq, Repr

/-- Python substring containment (the in operator) between strings. -/
def str_contains_sub (hay needle : String) : Bool :=
  decide (needle.data <:+: hay.data)

/-- Python str.lower, modelled character by character (the characters the
source compares are ASCII keywords, which Char.toLower covers). -/
def py_lower (s : String) : String := ⟨s.data.map Char.toLower⟩

/-- Python str.strip: drop whitespace from both ends. -/
def py_strip (s : String) : String :=
  ⟨((s.data.dropWhile Char.isWhitespace).reverse.dropWhile Char.isWhitespace).reverse⟩

/-- Row lookup by id (SELECT ... FROM posts WHERE id=?). -/
def find_post (store : List Post) (pid : Nat) : Option Post :=
  store.find? (fun p => p.id == pid)

/-- get_post_status (bot.py): the status column of the row, none when the
row is absent (the source returns the empty string then, which no guard
treats as terminal). -/
def get_post_status (store : List Post) (pid : Nat) : Option Status :=
  (find_post store pid).map Post.status

/-- UPDATE posts SET ... WHERE id=? : rewrite every row whose id matches. -/
def update_post (store : List Post) (pid : Nat) (f : Post → Post) : List Post :=
  store.map (fun p => if p.id = pid then f p else p)

/-- validate_post_text (bot.py): emptiness, length bounds between 5 and
100 code points, and the required marker emoji.  Python len counts code
points, as does String.length. -/
def validate_post_text (text : String) : Bool × String :=
  if text = "" || py_strip text = "" then
    (false, "❌ Текст поста не может быть пустым.")
  else if (py_strip text).length < 5 then
    (false, "❌ Текст поста слишком короткий")
  else if text.length > 100 then
    (false, "❌ Текст поста слишком длинный (максимум 100 символов).")
  else if !(str_contains_sub text "🧑") && !(str_contains_sub text "👩") then
    (false, "❌ <b>Обязательно добавьте один из этих эмодзи:</b>\n• 🧑 (мужчина)\n• 👩 (женщина)\n\nПримеры:\n• 🧑 Понравилась ...\n• 👩 Расскажите о ...")
  else
    (true, "✅ Текст прошел проверку.")

/-- is_in_publication_blacklist (bot.py): lowercase the text, then scan
the stored keywords in row order; the first keyword occurring as a
substring of the lowered text wins.  Keywords themselves are lowercased
when added (add_to_publication_blacklist). -/
def is_in_publication_blacklist (blacklist : List String) (text : String) : Bool × String :=
  match blacklist.find? (fun kw => str_contains_sub (py_lower text) kw) with
  | some kw => (true, kw)
  | none => (false, "")

/-- Calendar day of a local-clock timestamp, counted in days since the
epoch.  Models the date() projection SQLite applies to the stored local
timestamp string, and datetime.now().date(). -/
def local_day (t : Int) : Int := t.fdiv 86400

/-- posts_today (bot.py): the number of posts of the user whose stored
local timestamp falls on the same local calendar day as now.  The query
has no status filter. -/
def posts_today (store : List Post) (uid : Nat) (now : Int) : Nat :=
  (store.filter (fun p => p.user_id == uid && local_day p.time == local_day now)).length

/-- Follows the specification words, for comparison with posts_today: the
daily count with the day boundary on the UTC day.  The local wall clock
reads utc + tz, so a stored local timestamp t denotes the UTC instant
t - tz. -/
def posts_today_utc_spec (store : List Post) (uid : Nat) (now tz : Int) : Nat :=
  (store.filter (fun p =>
    p.user_id == uid && local_day (p.time - tz) == local_day (now - tz))).length

/-- Answer of the offer callback. -/
inductive OfferResult
  | BannedUser
  | RateLimited
  | ChooseType
deriving DecidableEq, Repr

/-- offer callback (bot.py): ban check first, then the daily cap of 5. -/
def offer (banned : Bool) (store : List Post) (uid : Nat) (now : Int) : OfferResult :=
  if banned then .BannedUser
  else if posts_today store uid now ≥ 5 then .RateLimited
  else .ChooseType

/-- Answer of the submission handler. -/
inductive SubmitResult
  | BannedUser
  | BlacklistRejected (keyword : String)
  | InvalidContent (message : String)
  | Accepted (pid : Nat)
deriving DecidableEq, Repr

/-- Next AUTOINCREMENT id of the posts table. -/
def next_id (store : List Post) : Nat :=
  store.foldr (fun p m => max p.id m) 0 + 1

/-- get_text_only (bot.py): ban check, blacklist scan, content validation,
and only then INSERT of a row with status "moderation" followed by the
hand-off to moderation.  The failing paths leave the table untouched. -/
def get_text_only (banned : Bool) (blacklist : List String) (store : List Post)
    (uid : Nat) (text : String) (now : Int) : SubmitResult × List Post :=
  if banned then (.BannedUser, store)
  else if (is_in_publication_blacklist blacklist text).1 then
    (.BlacklistRejected (is_in_publication_blacklist blacklist text).2, store)
  else if !(validate_post_text text).1 then
    (.InvalidContent (validate_post_text text).2, store)
  else
    (.Accepted (next_id store),
     store ++ [{ id := next_id store, user_id := uid, text := text, photo := none,
                 time := now, status := .moderation, moderator_id := none,
                 moderation_time := none, reject_reason := none }])

/-- Answer of the publish handler. -/
inductive PubResult
  | AlreadyDecided
  | PostNotFound
  | DeliveryFailed
  | Done
deriving DecidableEq, Repr

/-- Side effects of the publish handler, in program order. -/
inductive PubAction
  | deliverToChannel
  | mutateStatus
  | updateAdminMessage
  | notifyAuthor
deriving DecidableEq, Repr

/-- Result record of the publish handler. -/
structure PubOutcome where
  result : PubResult
  store : List Post
  actions : List PubAction
deriving DecidableEq, Repr

/-- publish handler (bot.py, callback yes_): status guard, row lookup,
channel delivery, and only on delivery success the status update together
with moderator_id and moderation_time.  The deliveryOk flag tells whether
the send to the main channel raises; the actions list records the side
effects in program order. -/
def publish (store : List Post) (pid : Nat) (moderator : Nat) (now : Int)
    (deliveryOk : Bool) : PubOutcome :=
  if get_post_status store pid = some .published ∨ get_post_status store pid = some .rejected then
    ⟨.AlreadyDecided, store, []⟩
  else
    match find_post store pid with
    | none => ⟨.PostNotFound, store, []⟩
    | some _ =>
      if deliveryOk then
        ⟨.Done,
         update_post store pid (fun p =>
           { p with status := .published, moderator_id := some moderator,
                    moderation_time := some now }),
         [.deliverToChannel, .mutateStatus, .updateAdminMessage, .notifyAuthor]⟩
      else ⟨.DeliveryFailed, store, [.deliverToChannel]⟩

/-- Answer of the reject handler. -/
inductive RejResult
  | AlreadyDecided
  | PostNotFound
  | AwaitingReason
deriving DecidableEq, Repr

/-- reject handler (bot.py, callback rej_): status guard, then creation of
the reject-flow FSM record with the timestamp of the request, overwriting
any previous record of this context; the posts table is not touched and
the 60 second watchdog is armed. -/
def reject (fsm : Option RejectData) (store : List Post) (pid : Nat)
    (message_id : Nat) (chat_id : Int) (now : Int) : RejResult × Option RejectData :=
  if get_post_status store pid = some .published ∨ get_post_status store pid = some .rejected then
    (.AlreadyDecided, fsm)
  else
    match find_post store pid with
    | none => (.PostNotFound, fsm)
    | some p =>
      (.AwaitingReason,
       some { post_id := pid, message_id := message_id, chat_id := chat_id,
              original_text := "📨 <b>Новый пост #" ++ toString pid ++ " на модерации</b>\n\n" ++ p.text,
              photo := p.photo, timestamp := now })

/-- Moderator-facing message renders the reject flow can leave behind:
either the original review text with the publish and reject controls
(reset_reject_state, moderation_keyboard), or the terminal view with the
disabled controls (disabled_moderation_keyboard). -/
inductive Render
  | original (pid : Nat) (text : String)
  | terminal (pid : Nat) (st : Status) (text : String)
deriving DecidableEq, Repr

/-- Answer of the reason handler. -/
inductive ReasonResult
  | MissingPostId
  | Expired
  | PostNotFound
  | Done
deriving DecidableEq, Repr

/-- Result record of the reason handler. -/
structure ReasonOutcome where
  result : ReasonResult
  fsm : Option RejectData
  store : List Post
  render : Option Render
deriving DecidableEq, Repr

/-- reject_reason handler (bot.py): fires in RejectState.wait_reason.  A
missing post id in the state data answers with an error; a reason arriving
more than 70 seconds after the request clears the state and restores the
original review message; otherwise the state is cleared, the row is looked
up, and the UPDATE sets status, moderator_id, moderation_time and
reject_reason.  The UPDATE is unconditional on the current status column,
and the sender of the reason message is recorded as moderator_id. -/
def reject_reason (fsm : Option RejectData) (store : List Post)
    (sender_id : Nat) (now : Int) (reason_text : String) : ReasonOutcome :=
  match fsm with
  | none => ⟨.MissingPostId, none, store, none⟩
  | some d =>
    if now - d.timestamp > 70 then
      ⟨.Expired, none, store, some (.original d.post_id d.original_text)⟩
    else
      match find_post store d.post_id with
      | none => ⟨.PostNotFound, none, store, none⟩
      | some _ =>
        ⟨.Done, none,
         update_post store d.post_id (fun p =>
           { p with status := .rejected, moderator_id := some sender_id,
                    moderation_time := some now, reject_reason := some reason_text }),
         some (.terminal d.post_id .rejected d.original_text)⟩

/-- Answer of the cancel handler. -/
inductive CancelResult
  | Mismatch
  | Cancelled
deriving DecidableEq, Repr

/-- cancel_rej handler (bot.py): compares only the post id stored in the
FSM record against the id carried by the callback data; the identity of
the caller is never consulted.  On a match the record is cleared and the
original review message restored. -/
def cancel_rej (fsm : Option RejectData) (pid : Nat) (_caller : Nat) :
    CancelResult × Option RejectData × Option Render :=
  match fsm with
  | none => (.Mismatch, none, none)
  | some d =>
    if d.post_id = pid then (.Cancelled, none, some (.original pid d.original_text))
    else (.Mismatch, some d, none)

/-- reject_timeout_handler (bot.py): after the 60 second sleep, re-read
the FSM context; when the stored post id still equals the armed one and
the state is still wait_reason, clear the record and restore the original
review message (whose text equals the captured one, the post text never
changing).  The posts table is never touched. -/
def reject_timeout_handler (fsm : Option RejectData) (pid : Nat) :
    Option RejectData × Option Render :=
  match fsm with
  | none => (none, none)
  | some d =>
    if d.post_id = pid then (none, some (.original pid d.original_text))
    else (some d, none)

/-- One moderation event fired against the shared posts table. -/
inductive Event
  | publishBy (pid moderator : Nat) (now : Int) (deliveryOk : Bool)
  | requestRejectBy (pid message_id : Nat) (chat_id now : Int)
  | supplyReasonBy (sender : Nat) (now : Int) (reason_text : String)
  | watchdogFire (pid : Nat)
deriving DecidableEq, Repr

/-- The shared state the moderation events act on: the posts table and the
reject-flow FSM record of the acting moderator (every reject-flow event of
a trace belongs to the context of the moderator who initiated the reject;
publish events never read it). -/
structure SysState where
  store : List Post
  fsm : Option RejectData
deriving DecidableEq, Repr

/-- One event applied to the shared state, combining the handlers above. -/
def step (s : SysState) : Event → SysState
  | .publishBy pid moderator now ok =>
      { s with store := (publish s.store pid moderator now ok).store }
  | .requestRejectBy pid mid cid now =>
      { s with fsm := (reject s.fsm s.store pid mid cid now).2 }
  | .supplyReasonBy sender now reason_text =>
      let o := reject_reason s.fsm s.store sender now reason_text
      { store := o.store, fsm := o.fsm }
  | .watchdogFire pid =>
      { s with fsm := (reject_timeout_handler s.fsm pid).1 }

/-- A whole interleaving of moderation events. -/
def run (s : SysState) (es : List Event) : SysState := es.foldl step s

/-!  The dispatch layer of the reject flow.  The dispatcher is built as
Dispatcher() (bot.py line 32), whose FSM strategy keys one context per
chat and user; the chat is fixed to the moderators topic here, so the
contexts form a table keyed by user id.  A handler bound to a state, such
as the reason handler bound to RejectState.wait_reason, fires for an
incoming message only when the context of that message sender is in the
bound state; the cancel callback fires for every caller but reads the
context of the caller. -/

/-- Result record of dispatching one message of the moderators topic to
the reason handler: whether the handler fired at all, its answer when it
did, the posts table, and the context table afterwards. -/
structure DispatchOutcome where
  handled : Bool
  result : Option ReasonResult
  store : List Post
  tbl : Nat → Option RejectData

/-- Dispatch of the reject callback: the handler works on the context of
the pressing moderator and stores the reject-flow record there. -/
def dispatch_reject_request (tbl : Nat → Option RejectData) (store : List Post)
    (pid initiator message_id : Nat) (chat_id now : Int) :
    RejResult × (Nat → Option RejectData) :=
  let r := reject (tbl initiator) store pid message_id chat_id now
  (r.1, fun u => if u = initiator then r.2 else tbl u)

/-- Dispatch of an incoming message of the moderators topic: the reason
handler fires only when the context of the sender itself is in
RejectState.wait_reason; a message of any other user falls through to the
other handlers and the reason flow does not run. -/
def dispatch_reason_message (tbl : Nat → Option RejectData) (store : List Post)
    (sender : Nat) (now : Int) (reason_text : String) : DispatchOutcome :=
  match tbl sender with
  | none => ⟨false, none, store, tbl⟩
  | some d =>
    let o := reject_reason (some d) store sender now reason_text
    ⟨true, some o.result, o.store, fun u => if u = sender then o.fsm else tbl u⟩

/-- Dispatch of the cancel callback: it fires for every caller but the
handler reads the context of the caller itself, so a caller without the
reject-flow record compares none against the supplied post id. -/
def dispatch_cancel_callback (tbl : Nat → Option RejectData) (pid : Nat)
    (caller : Nat) : CancelResult × (Nat → Option RejectData) × Option Render :=
  let r := cancel_rej (tbl caller) pid caller
  (r.1, fun u => if u = caller then r.2.1 else tbl u, r.2.2)

/-!  Theorems about the claims, in claim order. -/

/-- Helper: a pending status read comes from a found row that is pending. -/
theorem get_post_status_pending {store : List Post} {pid : Nat}
    (h : get_post_status store pid = some Status.moderation) :
    ∃ p, find_post store pid = some p ∧ p.status = Status.moderation := by
  unfold get_post_status at h
  cases hf : find_post store pid with
  | none => rw [hf] at h; exact absurd h (by simp)
  | some p =>
    rw [hf] at h
    exact ⟨p, rfl, by simpa using h⟩

/-- Helper: filtering a mapped list whose predicate the map preserves. -/
theorem length_filter_map_invariant (g : Post → Post) (q : Post → Bool)
    (hg : ∀ p, q (g p) = q p) (l : List Post) :
    ((l.map g).filter q).length = (l.filter q).length := by
  induction l with
  | nil => rfl
  | cons p t ih =>
    simp only [List.map_cons, List.filter_cons, hg]
    cases hq : q p
    · simpa [hq] using ih
    · simpa [hq] using ih

def c1Post : Post :=
  { id := 1, user_id := 7, text := "🧑 привет", photo := none, time := 0,
    status := .published, moderator_id := some 10,
    moderation_time := some 100, reject_reason := none }

def c1Data : RejectData :=
  { post_id := 1, message_id := 5, chat_id := 2,
    original_text := "o", photo := none, timestamp := 90 }

/-- C1: the claim fails on the code: the reason handler, fired while the
status of the post is already published and within the 70 second window,
overwrites the terminal status with rejected and rewrites moderator_id and
moderation_time a second time; the handler re-checks no status. -/
theorem C1_published_post_overwritten :
    (reject_reason (some c1Data) [c1Post] 11 120 "bad").result = .Done ∧
    (reject_reason (some c1Data) [c1Post] 11 120 "bad").store =
      [{ c1Post with status := .rejected, moderator_id := some 11,
                     moderation_time := some 120, reject_reason := some "bad" }] :=
  ⟨rfl, rfl⟩

def c2Post : Post :=
  { id := 1, user_id := 7, text := "🧑 привет", photo := none, time := 0,
    status := .moderation, moderator_id := none,
    moderation_time := none, reject_reason := none }

def c2Init : SysState := { store := [c2Post], fsm := none }

/-- C2: the claim fails on the code: in the interleaving requestReject by
moderator 10, successful publish by moderator 20, then the late reason
message of moderator 10 inside the grace window, the status of the post
visits published and afterwards rejected. -/
theorem C2_interleaving_visits_both :
    ((run c2Init [.requestRejectBy 1 5 2 0, .publishBy 1 20 10 true]).store.map Post.status
       = [.published]) ∧
    ((run c2Init [.requestRejectBy 1 5 2 0, .publishBy 1 20 10 true,
                  .supplyReasonBy 10 30 "причина"]).store.map Post.status
       = [.rejected]) :=
  ⟨rfl, rfl⟩

/-- C3: a reason message arriving more than 70 seconds after the reject
request (the 60 second deadline plus the grace window) answers Expired,
destroys the pending rejection, restores the original review message, and
returns the posts table, hence every field of the post, unchanged. -/
theorem C3_expired_reason_is_noop (d : RejectData) (store : List Post)
    (sender : Nat) (now : Int) (reason_text : String)
    (h : now - d.timestamp > 70) :
    reject_reason (some d) store sender now reason_text =
      ⟨.Expired, none, store, some (.original d.post_id d.original_text)⟩ := by
  simp only [reject_reason]
  rw [if_pos h]

def c3Data : RejectData :=
  { post_id := 1, message_id := 5, chat_id := 2,
    original_text := "o", photo := none, timestamp := 0 }

/-- C3 witness at a concrete input 71 seconds after the request. -/
theorem C3_expired_reason_is_noop_witness :
    reject_reason (some c3Data) [] 9 71 "r" =
      ⟨.Expired, none, [], some (.original 1 "o")⟩ :=
  C3_expired_reason_is_noop c3Data [] 9 71 "r" (by decide)

/-- C4: on a post whose status is already terminal, publish answers
AlreadyDecided, changes nothing and performs no channel delivery; a second
publish in sequence answers AlreadyDecided again; and reject answers
AlreadyDecided without creating a pending rejection. -/
theorem C4_terminal_idempotent (store : List Post) (pid moderator mid : Nat)
    (cid now : Int) (ok : Bool) (fsm : Option RejectData)
    (h : get_post_status store pid = some .published ∨
         get_post_status store pid = some .rejected) :
    publish store pid moderator now ok = ⟨.AlreadyDecided, store, []⟩ ∧
    publish (publish store pid moderator now ok).store pid moderator now ok
      = ⟨.AlreadyDecided, store, []⟩ ∧
    reject fsm store pid mid cid now = (.AlreadyDecided, fsm) := by
  have h1 : publish store pid moderator now ok = ⟨.AlreadyDecided, store, []⟩ := by
    unfold publish
    rw [if_pos h]
  refine ⟨h1, ?_, ?_⟩
  · rw [h1]
    exact h1
  · unfold reject
    rw [if_pos h]

def c4Post : Post :=
  { id := 1, user_id := 7, text := "🧑 привет", photo := none, time := 0,
    status := .published, moderator_id := some 10,
    moderation_time := some 100, reject_reason := none }

/-- C4 witness at a concrete already published post. -/
theorem C4_terminal_idempotent_witness :
    publish [c4Post] 1 9 50 true = ⟨.AlreadyDecided, [c4Post], []⟩ ∧
    publish (publish [c4Post] 1 9 50 true).store 1 9 50 true
      = ⟨.AlreadyDecided, [c4Post], []⟩ ∧
    reject none [c4Post] 1 5 2 50 = (.AlreadyDecided, none) :=
  C4_terminal_idempotent [c4Post] 1 9 5 2 50 true none (Or.inl rfl)

/-- C5: from a pending post, the channel delivery is attempted strictly
before the status mutation in the recorded action order; when delivery
fails the handler answers DeliveryFailed with the posts table unchanged
and no status mutation among its actions, and the unchanged post can then
be published by a retry. -/
theorem C5_delivery_before_mutation (store : List Post) (pid moderator : Nat)
    (now : Int) (h : get_post_status store pid = some .moderation) :
    publish store pid moderator now false
      = ⟨.DeliveryFailed, store, [.deliverToChannel]⟩ ∧
    (publish store pid moderator now true).actions
      = [.deliverToChannel, .mutateStatus, .updateAdminMessage, .notifyAuthor] ∧
    PubAction.mutateStatus ∉ (publish store pid moderator now false).actions ∧
    (publish (publish store pid moderator now false).store pid moderator now true).result
      = .Done := by
  obtain ⟨p, hf, hp⟩ := get_post_status_pending h
  have hg : ¬(get_post_status store pid = some .published ∨
              get_post_status store pid = some .rejected) := by
    rw [h]; decide
  have hfail : publish store pid moderator now false
      = ⟨.DeliveryFailed, store, [.deliverToChannel]⟩ := by
    unfold publish
    rw [if_neg hg, hf]
    rfl
  have hsucc : publish store pid moderator now true
      = ⟨.Done,
         update_post store pid (fun q =>
           { q with status := .published, moderator_id := some moderator,
                    moderation_time := some now }),
         [.deliverToChannel, .mutateStatus, .updateAdminMessage, .notifyAuthor]⟩ := by
    unfold publish
    rw [if_neg hg, hf]
    rfl
  refine ⟨hfail, ?_, ?_, ?_⟩
  · rw [hsucc]
  · rw [hfail]
    show PubAction.mutateStatus ∉ [PubAction.deliverToChannel]
    decide
  · rw [hfail]
    show (publish store pid moderator now true).result = .Done
    rw [hsucc]

def c5Post : Post :=
  { id := 1, user_id := 7, text := "🧑 привет", photo := none, time := 0,
    status := .moderation, moderator_id := none,
    moderation_time := none, reject_reason := none }

/-- C5 witness at a concrete pending post. -/
theorem C5_delivery_before_mutation_witness :
    publish [c5Post] 1 9 50 false = ⟨.DeliveryFailed, [c5Post], [.deliverToChannel]⟩ ∧
    (publish [c5Post] 1 9 50 true).actions
      = [.deliverToChannel, .mutateStatus, .updateAdminMessage, .notifyAuthor] ∧
    PubAction.mutateStatus ∉ (publish [c5Post] 1 9 50 false).actions ∧
    (publish (publish [c5Post] 1 9 50 false).store 1 9 50 true).result = .Done :=
  C5_delivery_before_mutation [c5Post] 1 9 50 rfl

/-- C6: the blacklist scan runs before content validation: a blacklisted
text is answered with the matching keyword and no row is created, even
when the text is also invalid; a clean but invalid text (empty, out of
length bounds, or missing the required marker emoji) is answered with the
validation message and no row is created; a text passing both checks
appends exactly one new row with status moderation; and the scan result
depends only on the lowercased text. -/
theorem C6_submission_order (blacklist : List String) (store : List Post)
    (uid : Nat) (text : String) (now : Int) :
    ((is_in_publication_blacklist blacklist text).1 = true →
       get_text_only false blacklist store uid text now
         = (.BlacklistRejected (is_in_publication_blacklist blacklist text).2, store)) ∧
    ((is_in_publication_blacklist blacklist text).1 = false →
     (validate_post_text text).1 = false →
       get_text_only false blacklist store uid text now
         = (.InvalidContent (validate_post_text text).2, store)) ∧
    ((is_in_publication_blacklist blacklist text).1 = false →
     (validate_post_text text).1 = true →
       get_text_only false blacklist store uid text now
         = (.Accepted (next_id store),
            store ++ [{ id := next_id store, user_id := uid, text := text,
                        photo := none, time := now, status := .moderation,
                        moderator_id := none, moderation_time := none,
                        reject_reason := none }])) ∧
    (str_contains_sub text "🧑" = false → str_contains_sub text "👩" = false →
       (validate_post_text text).1 = false) ∧
    (∀ t₁ t₂ : String, py_lower t₁ = py_lower t₂ →
       is_in_publication_blacklist blacklist t₁ = is_in_publication_blacklist blacklist t₂) := by
  refine ⟨?_, ?_, ?_, ?_, ?_⟩
  · intro hb
    simp [get_text_only, hb]
  · intro hb hv
    simp [get_text_only, hb, hv]
  · intro hb hv
    simp [get_text_only, hb, hv]
  · intro h1 h2
    unfold validate_post_text
    split
    · rfl
    · split
      · rfl
      · split
        · rfl
        · have hc : (!str_contains_sub text "🧑" && !str_contains_sub text "👩") = true := by
            rw [h1, h2]; rfl
          rw [if_pos hc]
  · intro t₁ t₂ hl
    unfold is_in_publication_blacklist
    rw [hl]

/-- C6 witness: the specification example keyword and content. -/
theorem C6_submission_order_witness :
    get_text_only false ["spam"] [] 7 "🧑 this is spam content" 0
      = (.BlacklistRejected "spam", []) :=
  (C6_submission_order ["spam"] [] 7 "🧑 this is spam content" 0).1 rfl

/-- C7: the watchdog never touches the posts table; when the pending
rejection for the armed post id is still outstanding it destroys it and
restores the original review message with the original controls, and when
the pending rejection is gone, or belongs to another post, it changes
nothing. -/
theorem C7_watchdog_rollback (s : SysState) (pid : Nat) :
    (step s (.watchdogFire pid)).store = s.store ∧
    (step s (.watchdogFire pid)).fsm
      = (match s.fsm with
         | none => none
         | some d => if d.post_id = pid then none else some d) ∧
    (reject_timeout_handler s.fsm pid).2
      = (match s.fsm with
         | none => none
         | some d => if d.post_id = pid then some (Render.original pid d.original_text)
                     else none) := by
  refine ⟨rfl, ?_, ?_⟩ <;>
    cases hf : s.fsm with
    | none => simp [step, reject_timeout_handler, hf]
    | some d =>
      by_cases h : d.post_id = pid <;>
        simp [step, reject_timeout_handler, hf, h]

def c8Post (i : Nat) : Post :=
  { id := i, user_id := 7, text := "t", photo := none, time := 3600,
    status := .moderation, moderator_id := none,
    moderation_time := none, reject_reason := none }

def c8Store : List Post := [c8Post 1, c8Post 2, c8Post 3, c8Post 4, c8Post 5]

/-- C8 counterexample: with the process clock three hours ahead of UTC,
five posts submitted at one in the morning local time lie on the current
local calendar day but on the previous UTC day; offer denies with
RateLimited although the UTC-day count of the claim is zero, so the day
boundary is not the UTC day. -/
theorem C8_counterexample :
    offer false c8Store 7 43200 = .RateLimited ∧
    posts_today_utc_spec c8Store 7 43200 10800 = 0 :=
  ⟨rfl, rfl⟩

/-- C8 amended: the eligibility check denies with RateLimited exactly when
the user already has at least five posts on the current local calendar day
of the process clock, which coincides with the UTC day only when the
process clock runs at UTC. -/
theorem C8_rate_limit_local_day (store : List Post) (uid : Nat) (now : Int) :
    offer false store uid now = .RateLimited ↔ posts_today store uid now ≥ 5 := by
  unfold offer
  rw [if_neg (by decide : ¬((false : Bool) = true))]
  by_cases h : posts_today store uid now ≥ 5
  · rw [if_pos h]
    simp [h]
  · rw [if_neg h]
    simp [h]

/-- C8 amended witness at the concrete rate limited store. -/
theorem C8_rate_limit_local_day_witness :
    offer false c8Store 7 43200 = .RateLimited :=
  (C8_rate_limit_local_day c8Store 7 43200).mpr (by decide)

/-- C9: the daily count ignores the status column: remapping every status
leaves posts_today unchanged, and a user with at least five posts on the
current local day, all of them rejected, is still denied with RateLimited. -/
theorem C9_quota_counts_all_statuses (store : List Post) (uid : Nat) (now : Int)
    (f : Post → Status) :
    posts_today (store.map (fun p => { p with status := f p })) uid now
      = posts_today store uid now ∧
    (posts_today store uid now ≥ 5 → (∀ p ∈ store, p.status = .rejected) →
       offer false store uid now = .RateLimited) := by
  constructor
  · unfold posts_today
    exact length_filter_map_invariant (fun p => { p with status := f p })
      (fun p => p.user_id == uid && local_day p.time == local_day now)
      (fun p => rfl) store
  · intro h5 _hall
    unfold offer
    rw [if_neg (by decide : ¬((false : Bool) = true)), if_pos h5]

def c9Post (i : Nat) : Post :=
  { id := i, user_id := 7, text := "t", photo := none, time := 3600,
    status := .rejected, moderator_id := some 10,
    moderation_time := some 4000, reject_reason := some "r" }

def c9Store : List Post := [c9Post 1, c9Post 2, c9Post 3, c9Post 4, c9Post 5]

/-- C9 witness: five posts today, all rejected, still exhaust the quota. -/
theorem C9_quota_counts_all_statuses_witness :
    offer false c9Store 7 43200 = .RateLimited :=
  (C9_quota_counts_all_statuses c9Store 7 43200 (fun _ => .rejected)).2
    (by decide) (by decide)

def c10Data : RejectData :=
  { post_id := 1, message_id := 5, chat_id := 2,
    original_text := "o", photo := none, timestamp := 0 }

def c10Post : Post :=
  { id := 1, user_id := 7, text := "🧑 привет", photo := none, time := 0,
    status := .moderation, moderator_id := none,
    moderation_time := none, reject_reason := none }

/-- The context table after moderator 10 pressed reject for post 1. -/
def c10Tbl : Nat → Option RejectData :=
  (dispatch_reject_request (fun _ => none) [c10Post] 1 10 5 2 0).2

/-- C10 counterexample: with the pending rejection created by moderator
10 outstanding, a message of user 11 in the moderators topic never
reaches the reason handler (the context of user 11 is empty under the
per-user keying of the dispatcher) and the posts table stays untouched,
so the message of user 11 is not accepted as the rejection reason and
user 11 is not recorded as moderator; and the cancel callback of user 11
with the matching post id 1 answers Mismatch, because the handler reads
the empty context of user 11. -/
theorem C10_counterexample :
    (dispatch_reason_message c10Tbl [c10Post] 11 30 "r").handled = false ∧
    (dispatch_reason_message c10Tbl [c10Post] 11 30 "r").store = [c10Post] ∧
    (dispatch_cancel_callback c10Tbl 1 11).1 = .Mismatch :=
  ⟨rfl, rfl, rfl⟩

/-- The context table with the record of c10Data held by moderator 10. -/
def c10TblW : Nat → Option RejectData :=
  fun u => if u = 10 then some c10Data else none

/-- C10 amended: the handlers compare no user identities and the stored
record holds no initiator id, but the dispatcher keys the FSM context per
user, so only the initiating moderator has a context in wait_reason: a
message of a user whose own context is empty never reaches the reason
handler and mutates nothing, a reason message of the initiator within the
window is accepted and records the initiator as moderator_id, and the
cancel callback succeeds exactly when the context of the caller itself
holds the matching post id, any other caller answering Mismatch. -/
theorem C10_fsm_scoped_identity (tbl : Nat → Option RejectData)
    (store : List Post) (p : Post) (d : RejectData)
    (sender initiator pid caller : Nat) (now : Int) (reason_text : String)
    (hs : tbl sender = none) (hi : tbl initiator = some d)
    (ht : ¬now - d.timestamp > 70) (hf : find_post store d.post_id = some p) :
    ((dispatch_reason_message tbl store sender now reason_text).handled = false ∧
     (dispatch_reason_message tbl store sender now reason_text).store = store) ∧
    ((dispatch_reason_message tbl store initiator now reason_text).result
       = some .Done ∧
     (dispatch_reason_message tbl store initiator now reason_text).store
       = update_post store d.post_id (fun q =>
           { q with status := .rejected, moderator_id := some initiator,
                    moderation_time := some now, reject_reason := some reason_text })) ∧
    ((dispatch_cancel_callback tbl pid caller).1 = .Cancelled ↔
       ∃ e, tbl caller = some e ∧ e.post_id = pid) := by
  have hrr : reject_reason (some d) store initiator now reason_text
      = ⟨.Done, none,
         update_post store d.post_id (fun q =>
           { q with status := .rejected, moderator_id := some initiator,
                    moderation_time := some now, reject_reason := some reason_text }),
         some (.terminal d.post_id .rejected d.original_text)⟩ := by
    simp only [reject_reason]
    rw [if_neg ht, hf]
  refine ⟨⟨?_, ?_⟩, ⟨?_, ?_⟩, ?_⟩
  · simp only [dispatch_reason_message, hs]
  · simp only [dispatch_reason_message, hs]
  · simp only [dispatch_reason_message, hi, hrr]
  · simp only [dispatch_reason_message, hi, hrr]
  · unfold dispatch_cancel_callback
    cases hc : tbl caller with
    | none => simp [cancel_rej, hc]
    | some e =>
      by_cases h : e.post_id = pid
      · simp [cancel_rej, hc, h]
      · simp [cancel_rej, hc, h]

/-- C10 witness: initiator 10 owns the context, user 11 does not. -/
theorem C10_fsm_scoped_identity_witness :
    ((dispatch_reason_message c10TblW [c10Post] 11 30 "r").handled = false ∧
     (dispatch_reason_message c10TblW [c10Post] 11 30 "r").store = [c10Post]) ∧
    ((dispatch_reason_message c10TblW [c10Post] 10 30 "r").result = some .Done ∧
     (dispatch_reason_message c10TblW [c10Post] 10 30 "r").store
       = update_post [c10Post] 1 (fun q =>
           { q with status := .rejected, moderator_id := some 10,
                    moderation_time := some 30, reject_reason := some "r" })) ∧
    ((dispatch_cancel_callback c10TblW 1 11).1 = .Cancelled ↔
       ∃ e, c10TblW 11 = some e ∧ e.post_id = 1) :=
  C10_fsm_scoped_identity c10TblW [c10Post] c10Post c10Data 11 10 1 11 30 "r"
    rfl rfl (by decide) rfl

end ModBot
